import Mathlib

/-!
Verification of the animation-frame data pipeline in
`pandas_alive/refactor_charts.py` (class `_BaseChart` and its `LineChart` /
`ScatterChart` subclasses).

The pandas `DataFrame` is embedded shallowly: an index of rational values
tagged with its kind (datetime indexes are modelled as rational timestamps
measured in seconds), and a list of named columns whose cells are
`Option ℚ` (`none` models a missing value / NaN; the payload of
non-numeric columns is irrelevant to every property proved here, only
their dtype flag matters).  Fallible pandas operations are embedded as
`Except String` computations whose error strings paraphrase the Python
exception messages.
-/

/-- Kind of a DataFrame index: a datetime64 index or a plain numeric index. -/
inductive IdxKind : Type
  | datetime : IdxKind
  | numeric : IdxKind
deriving DecidableEq, Repr

/-- One named column of a DataFrame: its label, whether
`np.issubdtype(df[col].dtype, np.number)` holds, and its cells
(`none` models NaN). -/
structure Col : Type where
  name : String
  numeric : Bool
  vals : List (Option ℚ)
deriving DecidableEq, Repr

/-- Shallow embedding of a pandas DataFrame: index kind, index values and
columns.  Datetime index values are timestamps in seconds. -/
structure DataFrame : Type where
  idxKind : IdxKind
  index : List ℚ
  cols : List Col
deriving DecidableEq, Repr

/-- The inner loop of `_BaseChart.get_data_cols`: iterate over the columns,
re-checking membership of each label in `df.columns` (the defensive branch),
and collect the labels of numeric columns. -/
def dataColsLoop (allNames : List String) : List Col → Except String (List String)
  | [] => Except.ok []
  | c :: rest =>
    if c.name ∉ allNames then
      Except.error ("Could not find " ++ c.name ++ " in the columns of the provided DataFrame/Series. Please provide for the <y> parameter either a column name of the DataFrame/Series or an array of the same length.")
    else
      (dataColsLoop allNames rest).map fun tail =>
        if c.numeric then c.name :: tail else tail

/-- `_BaseChart.get_data_cols`: the list of numeric column labels, raising
when it is empty. -/
def get_data_cols (df : DataFrame) : Except String (List String) := do
  let dc ← dataColsLoop (df.cols.map Col.name) df.cols
  if dc.isEmpty then
    Except.error "No numeric data columns found for plotting."
  else
    Except.ok dc

/-- A Python value appearing in a period-label style dict. -/
inductive PyVal : Type
  | num : ℚ → PyVal
  | str : String → PyVal
deriving DecidableEq, Repr

/-- A period-label style dict (`matplotlib` `ax.text` keyword arguments),
keys in insertion order. -/
abbrev StyleDict : Type := List (String × PyVal)

/-- The `period_label` argument: a Python bool or a style dict. -/
inductive PeriodLabel : Type
  | bool : Bool → PeriodLabel
  | dict : StyleDict → PeriodLabel
deriving DecidableEq, Repr

/-- Python truth-testing of a `period_label` value: `False` and the empty
dict are falsy. -/
def PeriodLabel.falsy : PeriodLabel → Bool
  | .bool b => !b
  | .dict d => d.isEmpty

/-- Whether a style dict has an entry for key `k`. -/
def dictHasKey (d : StyleDict) (k : String) : Bool :=
  d.any fun e => e.1 == k

/-- The default style dict installed by `get_period_label` for
`period_label=True` (bottom right corner). -/
def default_period_label : StyleDict :=
  [("size", PyVal.num 12), ("x", PyVal.num (9/10)),
   ("y", PyVal.num (1/10)), ("ha", PyVal.str "right")]

/-- `_BaseChart.get_period_label`: `Except.ok none` models the Python
return value `False`, `Except.ok (some d)` models returning the style
dict `d`, and `Except.error` models the `ValueError`. -/
def get_period_label (pl : PeriodLabel) : Except String (Option StyleDict) :=
  if pl.falsy then Except.ok none
  else
    match pl with
    | .bool _ => Except.ok (some default_period_label)
    | .dict d =>
      if ¬ dictHasKey d "x" ∨ ¬ dictHasKey d "y" then
        Except.error "period_label dictionary must have keys for x and y"
      else
        Except.ok (some d)

/-- Cell lookup in a column: `none` past the end (and `none` models NaN). -/
def cellAt (l : List (Option ℚ)) (j : ℕ) : Option ℚ :=
  (l.get? j).getD none

/-- Latest known (non-NaN) cell at position `≤ j`. -/
def prevKnown (l : List (Option ℚ)) : ℕ → Option (ℕ × ℚ)
  | 0 =>
    match cellAt l 0 with
    | some v => some (0, v)
    | none => none
  | j + 1 =>
    match cellAt l (j + 1) with
    | some v => some (j + 1, v)
    | none => prevKnown l j

/-- Earliest known (non-NaN) cell at position `≥ j`, fuelled search. -/
def nextKnownFrom (l : List (Option ℚ)) : ℕ → ℕ → Option (ℕ × ℚ)
  | _, 0 => none
  | j, fuel + 1 =>
    match cellAt l j with
    | some v => some (j, v)
    | none => nextKnownFrom l (j + 1) fuel

/-- Earliest known (non-NaN) cell at position `≥ j`. -/
def nextKnown (l : List (Option ℚ)) (j : ℕ) : Option (ℕ × ℚ) :=
  nextKnownFrom l j (l.length - j)

/-- Pandas `Series.interpolate` against abscissae `x` (default
`limit_direction = forward`): interior NaN between known points
`(x p, pv)` and `(x n, nv)` takes `pv + (x j - x p) * (nv - pv) / (x n - x p)`;
trailing NaN after the last known point holds the last known value;
leading NaN stays NaN.  With `x = id` this is the positional `linear`
method, with `x` the index values it is the `time` / `values` method. -/
def interpWith (x : ℕ → ℚ) (l : List (Option ℚ)) : List (Option ℚ) :=
  (List.range l.length).map fun j =>
    match cellAt l j with
    | some v => some v
    | none =>
      match prevKnown l j, nextKnown l j with
      | some pk, some nk => some (pk.2 + (x j - x pk.1) * (nk.2 - pk.2) / (x nk.1 - x pk.1))
      | some pk, none => some pk.2
      | none, _ => none

/-- Pandas `fillna(method = ffill)`: carry the last known value forward. -/
def ffillAux (cur : Option ℚ) : List (Option ℚ) → List (Option ℚ)
  | [] => []
  | some v :: rest => some v :: ffillAux (some v) rest
  | none :: rest => cur :: ffillAux cur rest

/-- Forward fill of a column. -/
def ffill (l : List (Option ℚ)) : List (Option ℚ) :=
  ffillAux none l

/-- Reindexing of a data column onto positions `0, ..., L - 1`, original
row `k` (of `N`) landing at position `k * s`, all other positions NaN. -/
def reindexCells (s N : ℕ) (vs : List (Option ℚ)) (L : ℕ) : List (Option ℚ) :=
  (List.range L).map fun j =>
    if j % s = 0 ∧ j / s < N then cellAt vs (j / s) else none

/-- Reindexing of the reset index column (the former DataFrame index). -/
def reindexIndexCol (s : ℕ) (idx : List ℚ) (L : ℕ) : List (Option ℚ) :=
  (List.range L).map fun j =>
    if j % s = 0 ∧ j / s < idx.length then idx.get? (j / s) else none

/-- `pd.date_range(first, last, periods = L)` applied to the reindexed
index column as in `get_interpolated_df`: `first` and `last` are read from
positions `0` and `-1`, and the result is the evenly spaced inclusive
sequence from `first` to `last` of length `L`. -/
def fillIndexDate (rix : List (Option ℚ)) : List ℚ :=
  let first := (cellAt rix 0).getD 0
  let last := (cellAt rix (rix.length - 1)).getD 0
  if rix.length ≤ 1 then [first]
  else
    (List.range rix.length).map fun (j : ℕ) =>
      first + (j : ℚ) * (last - first) / ((rix.length : ℚ) - 1)

/-- `_BaseChart.get_interpolated_df`.  The steps mirror the source: reset
the index into column 0, spread row `k` to position `k * steps_per_period`,
reindex onto `range((N - 1) * steps_per_period + 1)`, fill the index column
(`date_range` for a datetime index under `interpolate_period`, linear
interpolation for a numeric one, forward fill otherwise), set it back as
the index, then interpolate the data columns — `method = time`, which
raises on a non-datetime index, under `interpolate_period`, positional
linear interpolation otherwise.  Errors: an empty frame fails indexing
`index[-1]`; `steps_per_period = 0` with `≥ 2` rows makes the spread
positions collide so `reindex` raises on the duplicate axis. -/
def get_interpolated_df (df : DataFrame) (steps_per_period : ℕ)
    (interpolate_period : Bool) : Except String DataFrame :=
  if df.index.length = 0 then
    Except.error "index -1 is out of bounds for axis 0 with size 0"
  else if steps_per_period = 0 ∧ 2 ≤ df.index.length then
    Except.error "cannot reindex from a duplicate axis"
  else
    let N := df.index.length
    let L := (N - 1) * steps_per_period + 1
    let rix := reindexIndexCol steps_per_period df.index L
    let rcols := df.cols.map fun c =>
      { c with vals := reindexCells steps_per_period N c.vals L }
    if interpolate_period then
      if df.idxKind = IdxKind.datetime then
        let newIndex := fillIndexDate rix
        Except.ok
          { idxKind := df.idxKind, index := newIndex,
            cols := rcols.map fun c =>
              if c.numeric then
                { c with vals := interpWith (fun j => newIndex.getD j 0) c.vals }
              else c }
      else
        Except.error "time-weighted interpolation only works on Series or DataFrames with a DatetimeIndex"
    else
      let newIndex := (ffill rix).map fun v => v.getD 0
      Except.ok
        { idxKind := df.idxKind, index := newIndex,
          cols := rcols.map fun c =>
            if c.numeric then
              { c with vals := interpWith (fun j => (j : ℚ)) c.vals }
            else c }

/-- `_BaseChart.get_frames`: `range(len(self.df.index))` over the
(interpolated) DataFrame held by the chart. -/
def get_frames (df : DataFrame) : List ℕ :=
  List.range df.index.length

/-- The input table of the end-to-end scenario of §8.7 of the spec:
numeric yearly index `[2000, 2001, 2002]`, one numeric column
`[1.0, 2.0, 4.0]`. -/
def scenarioDf : DataFrame :=
  { idxKind := IdxKind.numeric, index := [2000, 2001, 2002],
    cols := [{ name := "v", numeric := true, vals := [some 1, some 2, some 4] }] }

/-- Witness instantiating `interpolated_row_count` on a concrete one-row
table with `steps_per_period = 1`. -/
def oneRowDf : DataFrame :=
  { idxKind := IdxKind.numeric, index := [5],
    cols := [{ name := "a", numeric := true, vals := [some 1] }] }

/-- A numeric-index table used as the concrete counterexample input for C3. -/
def numericDf : DataFrame :=
  { idxKind := IdxKind.numeric, index := [10, 11, 12],
    cols := [{ name := "w", numeric := true, vals := [some 1, some 2, some 3] }] }

/-- Witness instantiating `interpolated_endpoints` on a concrete datetime
table with `interpolate_period = true`. -/
def datetimeDf : DataFrame :=
  { idxKind := IdxKind.datetime, index := [100, 200, 500],
    cols := [{ name := "t", numeric := true, vals := [some 1, some 2, some 6] }] }

/-- Minimum of a list of rationals (`pd.Index.min` / column-wise `min`
with `skipna`), `none` on an empty list. -/
def listMinQ : List ℚ → Option ℚ
  | [] => none
  | x :: xs =>
    match listMinQ xs with
    | none => some x
    | some m => some (min x m)

/-- Maximum of a list of rationals, `none` on an empty list. -/
def listMaxQ : List ℚ → Option ℚ
  | [] => none
  | x :: xs =>
    match listMaxQ xs with
    | none => some x
    | some m => some (max x m)

/-- All non-missing values of numeric columns over rows `0 .. i`
(`df.iloc[: i + 1].select_dtypes(include=[np.number])`, NaN skipped). -/
def numericValsUpTo (df : DataFrame) (i : ℕ) : List ℚ :=
  (df.cols.filter fun c => c.numeric).bind fun c =>
    (c.vals.take (i + 1)).filterMap id

/-- `pd.Timedelta(seconds = 1)` in the timestamp unit of the model. -/
def timedelta_pad : ℚ := 1

/-- `_BaseChart.set_x_y_limits`: x-limits are the minimum of the index
over rows `0 .. i` and the maximum plus `pd.Timedelta(seconds = 1)`;
y-limits are the min/max over all numeric-column values of those rows
(`none` models the NaN produced when no value exists).  Adding a
`Timedelta` to the maximum is only defined for a datetime-like index: on
a numeric index Python raises a `TypeError`, modelled by the error
branch. -/
def set_x_y_limits (df : DataFrame) (i : ℕ) :
    Except String ((ℚ × ℚ) × (Option ℚ × Option ℚ)) :=
  match listMinQ (df.index.take (i + 1)), listMaxQ (df.index.take (i + 1)) with
  | some lo, some hi =>
    if df.idxKind = IdxKind.datetime then
      Except.ok ((lo, hi + timedelta_pad),
        (listMinQ (numericValsUpTo df i), listMaxQ (numericValsUpTo df i)))
    else
      Except.error "unsupported operand types for add: float and Timedelta"
  | _, _ => Except.error "attempt to get min of an empty sequence"

/-- Concrete datetime chart table used by the C4 witness. -/
def ylimDf : DataFrame :=
  { idxKind := IdxKind.datetime, index := [0],
    cols := [{ name := "y", numeric := true, vals := [some 3] }] }

/-- Concrete numeric-index table used as the C5 counterexample input. -/
def numericXlimDf : DataFrame :=
  { idxKind := IdxKind.numeric, index := [3, 4],
    cols := [{ name := "z", numeric := true, vals := [some 1, some 2] }] }

/-- Concrete datetime table used by the C5 witness. -/
def datetimeXlimDf : DataFrame :=
  { idxKind := IdxKind.datetime, index := [50, 60],
    cols := [{ name := "z", numeric := true, vals := [some 1, some 2] }] }

/-- A table with one non-numeric and one numeric column. -/
def mixedColsDf : DataFrame :=
  { idxKind := IdxKind.numeric, index := [1],
    cols := [{ name := "s", numeric := false, vals := [none] },
             { name := "a", numeric := true, vals := [some 2] }] }

/-- A table with no numeric column. -/
def noNumColsDf : DataFrame :=
  { idxKind := IdxKind.numeric, index := [1],
    cols := [{ name := "s", numeric := false, vals := [none] }] }

/-- The `size` option of a `ScatterChart`: a numeric constant or the name
of a column. -/
inductive SizeSpec : Type
  | num : ℚ → SizeSpec
  | str : String → SizeSpec
deriving DecidableEq, Repr

/-- The loop of `ScatterChart.plot_point` over the `zip(data_cols, colors)`
pairs.  Each iteration appends the frame point to the accumulated point
lists, then — when `size` is a string — validates it against `data_cols`,
raising before the `ax.scatter` call of that iteration, and finally draws.
Result: how many `ax.scatter` calls were made, and the raised error if
any. -/
def scatterLoop (pairs : List (String × String)) (size : SizeSpec)
    (data_cols : List String) : ℕ × Option String :=
  match pairs with
  | [] => (0, none)
  | _ :: rest =>
    match size with
    | .str s =>
      if s ∉ data_cols then
        (0, some ("Size provided as string: " ++ s ++ ", not present in dataframe columns"))
      else
        let r := scatterLoop rest size data_cols
        (r.1 + 1, r.2)
    | .num _ =>
      let r := scatterLoop rest size data_cols
      (r.1 + 1, r.2)

/-- `ScatterChart.plot_point` for frame `i`: `set_x_y_limits` first (which
may itself raise), then the per-column loop.  Returns the number of
`ax.scatter` draw calls performed before any error, and the error. -/
def plot_point (df : DataFrame) (data_cols colors : List String)
    (size : SizeSpec) (i : ℕ) : ℕ × Option String :=
  match set_x_y_limits df i with
  | Except.error e => (0, some e)
  | Except.ok _ => scatterLoop (data_cols.zip colors) size data_cols

/-- The concrete datetime table of the C8 witness. -/
def scatterDf : DataFrame :=
  { idxKind := IdxKind.datetime, index := [0, 10],
    cols := [{ name := "y", numeric := true, vals := [some 1, some 2] }] }

/-- Python truthiness of the `period_fmt` attribute: `None` and the empty
string are falsy. -/
def strTruthy : Option String → Bool
  | none => false
  | some st => !st.isEmpty

/-- Model of the external Python `strftime` rendering of a timestamp with
a date pattern (kept abstract but executable). -/
def strftime (fmt : String) (t : ℚ) : String :=
  fmt ++ "@" ++ toString t

/-- Model of the external Python `str.format` keyword substitution of `x`
(kept abstract but executable). -/
def pyformat (fmt : String) (x : ℚ) : String :=
  fmt ++ "#" ++ toString x

/-- The label string `show_period` computes for frame `i`: `strftime` on
a datetime index, `str.format` otherwise, falling back to the plain
string form of the index value when no format is configured. -/
def period_string (df : DataFrame) (fmt : Option String) (i : ℕ) : String :=
  if strTruthy fmt then
    if df.idxKind = IdxKind.datetime then strftime (fmt.getD "") (df.index.getD i 0)
    else pyformat (fmt.getD "") (df.index.getD i 0)
  else toString (df.index.getD i 0)

/-- A matplotlib text object on the axes: its current string content and
the style/anchor keyword arguments it was created with. -/
structure TextObj : Type where
  content : String
  props : StyleDict
deriving DecidableEq, Repr

/-- The mutable state of a line-chart animation: the text objects on the
axes (`ax.texts`) together with a count of `ax.text` creation calls, the
lines currently drawn (`ax.lines`, each a point list), and the
accumulating `_lines` series dictionary of the chart. -/
structure LineState : Type where
  texts : List TextObj
  textCalls : ℕ
  axLines : List (List (ℚ × Option ℚ))
  series : List (String × List (ℚ × Option ℚ))
deriving DecidableEq, Repr

/-- `_BaseChart.show_period`: skipped when `period_label` is falsy;
otherwise format the frame index value, and — when no text exists on the
axes yet (first frame) — create the text via `ax.text` with the kwargs
from `get_period_label` (which may raise), else update the content of
`ax.texts[0]` in place. -/
def show_period (df : DataFrame) (pl : PeriodLabel) (fmt : Option String)
    (i : ℕ) (texts : List TextObj) (calls : ℕ) :
    Except String (List TextObj × ℕ) :=
  if pl.falsy then Except.ok (texts, calls)
  else
    if texts.length = 0 then
      match get_period_label pl with
      | Except.error e => Except.error e
      | Except.ok none => Except.error "argument of type bool is not a mapping"
      | Except.ok (some d) =>
        Except.ok (texts ++ [{ content := period_string df fmt i, props := d }], calls + 1)
    else
      match texts with
      | [] => Except.ok ([], calls)
      | t :: rest => Except.ok ({ t with content := period_string df fmt i } :: rest, calls)

/-- `self.df[name].iloc[i]`: the cell of the column labelled `name` at
row `i`. -/
def colValAt (df : DataFrame) (name : String) (i : ℕ) : Option ℚ :=
  match df.cols.find? (fun c => c.name == name) with
  | some c => cellAt c.vals i
  | none => none

/-- `self._lines[name]["x"].append(...)` / `["y"].append(...)`: append a
point to the series dictionary entry labelled `name`. -/
def updateSeries (series : List (String × List (ℚ × Option ℚ))) (name : String)
    (pt : ℚ × Option ℚ) : List (String × List (ℚ × Option ℚ)) :=
  series.map fun e => if e.1 = name then (e.1, e.2 ++ [pt]) else e

/-- Lookup of a series dictionary entry. -/
def seriesOf (series : List (String × List (ℚ × Option ℚ))) (name : String) :
    List (ℚ × Option ℚ) :=
  ((series.find? (fun e => e.1 == name)).map Prod.snd).getD []

/-- One iteration of the `plot_line` loop for a `(name, color)` pair:
append the frame point to the series of `name`, then `ax.plot` the
accumulated series as a new line on the axes. -/
def plotLineStep (df : DataFrame) (i : ℕ) (acc : LineState)
    (p : String × String) : LineState :=
  let series2 := updateSeries acc.series p.1 (df.index.getD i 0, colValAt df p.1 i)
  { acc with series := series2, axLines := acc.axLines ++ [seriesOf series2 p.1] }

/-- `LineChart.plot_line`: `set_x_y_limits` (which may raise), then the
loop over `zip(data_cols, line_colors)`. -/
def plot_line (df : DataFrame) (data_cols line_colors : List String)
    (i : ℕ) (st : LineState) : Except String LineState :=
  match set_x_y_limits df i with
  | Except.error e => Except.error e
  | Except.ok _ =>
    Except.ok ((data_cols.zip line_colors).foldl (plotLineStep df i) st)

/-- `LineChart.anim_func` for frame `i`: remove every line from the axes,
`plot_line`, then `show_period` — the latter only when `period_fmt` is
truthy. -/
def anim_func (df : DataFrame) (data_cols line_colors : List String)
    (pl : PeriodLabel) (fmt : Option String) (i : ℕ) (st : LineState) :
    Except String LineState :=
  match plot_line df data_cols line_colors i { st with axLines := [] } with
  | Except.error e => Except.error e
  | Except.ok st1 =>
    if strTruthy fmt then
      match show_period df pl fmt i st1.texts st1.textCalls with
      | Except.error e => Except.error e
      | Except.ok (ts, calls) => Except.ok { st1 with texts := ts, textCalls := calls }
    else
      Except.ok st1

/-- The state after `LineChart.init_func`: `ax.plot([], [])` leaves one
empty line on the axes, no text, and empty series lists. -/
def init_state (data_cols : List String) : LineState :=
  { texts := [], textCalls := 0, axLines := [[]],
    series := data_cols.map fun n => (n, []) }

/-- The animation driver: run `anim_func` on frames `0, ..., n - 1` in
ascending order starting from the `init_func` state. -/
def run_anim (df : DataFrame) (data_cols line_colors : List String)
    (pl : PeriodLabel) (fmt : Option String) : ℕ → Except String LineState
  | 0 => Except.ok (init_state data_cols)
  | n + 1 =>
    match run_anim df data_cols line_colors pl fmt n with
    | Except.error e => Except.error e
    | Except.ok st => anim_func df data_cols line_colors pl fmt n st

/-- The concrete chart of the C6 counterexample: datetime index, period
label enabled, but no period format configured. -/
def labelOnlyDf : DataFrame :=
  { idxKind := IdxKind.datetime, index := [0, 10],
    cols := [{ name := "y", numeric := true, vals := [some 1, some 2] }] }

/-- The concrete chart of the C6 witness. -/
def labelFmtDf : DataFrame :=
  { idxKind := IdxKind.datetime, index := [20, 30],
    cols := [{ name := "y", numeric := true, vals := [some 1, some 2] }] }

theorem dataColsLoop_ok (allNames : List String) (cs : List Col)
    (h : ∀ c ∈ cs, c.name ∈ allNames) :
    dataColsLoop allNames cs =
      Except.ok ((cs.filter fun c => c.numeric).map Col.name) := by
  induction cs with
  | nil => rfl
  | cons c rest ih =>
    have hc : c.name ∈ allNames := h c (List.mem_cons_self c rest)
    have hrest : ∀ x ∈ rest, x.name ∈ allNames := fun x hx =>
      h x (List.mem_cons_of_mem c hx)
    simp only [dataColsLoop, hc, ih hrest]
    by_cases hn : c.numeric
    · simp [hn, Except.map, List.filter_cons]
    · simp [hn, Except.map, List.filter_cons]

theorem get_data_cols_eq (df : DataFrame) :
    get_data_cols df =
      (if ((df.cols.filter fun c => c.numeric).map Col.name).isEmpty then
        Except.error "No numeric data columns found for plotting."
      else
        Except.ok ((df.cols.filter fun c => c.numeric).map Col.name)) := by
  have h : ∀ c ∈ df.cols, c.name ∈ df.cols.map Col.name := fun c hc =>
    List.mem_map_of_mem Col.name hc
  simp only [get_data_cols, dataColsLoop_ok (df.cols.map Col.name) df.cols h]
  rfl

theorem get?_range_map {α : Type} (f : ℕ → α) (L j : ℕ) (hj : j < L) :
    ((List.range L).map f).get? j = some (f j) := by
  rw [List.get?_eq_getElem?]
  simp [List.getElem?_map, List.getElem?_range, hj]

theorem interpWith_length (x : ℕ → ℚ) (l : List (Option ℚ)) :
    (interpWith x l).length = l.length := by
  simp [interpWith]

theorem ffillAux_length (c : Option ℚ) (l : List (Option ℚ)) :
    (ffillAux c l).length = l.length := by
  induction l generalizing c with
  | nil => rfl
  | cons v rest ih =>
    cases v <;> simp [ffillAux, ih]

theorem ffill_length (l : List (Option ℚ)) : (ffill l).length = l.length :=
  ffillAux_length none l

theorem reindexIndexCol_length (s : ℕ) (idx : List ℚ) (L : ℕ) :
    (reindexIndexCol s idx L).length = L := by
  simp [reindexIndexCol]

theorem fillIndexDate_length (rix : List (Option ℚ)) (h : 1 ≤ rix.length) :
    (fillIndexDate rix).length = rix.length := by
  unfold fillIndexDate
  by_cases hL : rix.length ≤ 1
  · have h1 : rix.length = 1 := le_antisymm hL h
    rw [if_pos hL, h1, List.length_singleton]
  · rw [if_neg hL, List.length_map, List.length_range]

/-- C1 (amended).  Whenever `get_interpolated_df` succeeds on an input with
`N` rows, the interpolated table has exactly `(N - 1) * steps_per_period + 1`
rows — not `steps_per_period * N` — and `get_frames` on the chart
DataFrame is a sequence of that same length. -/
theorem interpolated_row_count (df : DataFrame) (s : ℕ) (ip : Bool)
    (out : DataFrame) (h : get_interpolated_df df s ip = Except.ok out) :
    out.index.length = (df.index.length - 1) * s + 1 ∧
    (get_frames out).length = (df.index.length - 1) * s + 1 := by
  have hlen : out.index.length = (df.index.length - 1) * s + 1 := by
    unfold get_interpolated_df at h
    by_cases h0 : df.index.length = 0
    · simp [h0] at h
    · simp only [h0, if_false] at h
      by_cases h1 : s = 0 ∧ 2 ≤ df.index.length
      · simp [h1] at h
      · simp only [h1, if_false] at h
        cases ip with
        | true =>
          by_cases hk : df.idxKind = IdxKind.datetime
          · simp only [hk, if_true, reduceIte, Except.ok.injEq] at h
            have hL : 1 ≤ (reindexIndexCol s df.index
                ((df.index.length - 1) * s + 1)).length := by
              rw [reindexIndexCol_length]
              exact Nat.succ_le_succ (Nat.zero_le _)
            rw [← h]
            simp [fillIndexDate_length _ hL, reindexIndexCol_length]
          · simp [hk] at h
        | false =>
          simp only [Bool.false_eq_true, if_false, Except.ok.injEq] at h
          rw [← h]
          simp [ffill_length, reindexIndexCol_length]
  exact ⟨hlen, by simpa [get_frames] using hlen⟩

/-- Counterexample to C1 as stated: a 3-row table with
`steps_per_period = 2` interpolates to 5 rows, not `2 * 3 = 6`, and the
frame sequence also has length 5. -/
theorem interpolated_row_count_cex :
    (get_interpolated_df scenarioDf 2 false).map (fun out =>
      (out.index.length, (get_frames out).length)) = Except.ok (5, 5) ∧
    (5 : ℕ) ≠ 2 * 3 :=
  ⟨rfl, by decide⟩

theorem interpolated_row_count_witness :
    oneRowDf.index.length = (oneRowDf.index.length - 1) * 1 + 1 ∧
    (get_frames oneRowDf).length = (oneRowDf.index.length - 1) * 1 + 1 :=
  interpolated_row_count oneRowDf 1 false oneRowDf rfl

/-- Counterexample to C2 as stated: on the §8.7 scenario input (numeric
index) with `interpolate_period = true`, `get_interpolated_df` raises —
`interpolate(method = time)` refuses a non-datetime index — rather than
returning 6 interpolated rows. -/
theorem interpolated_scenario_cex :
    get_interpolated_df scenarioDf 2 true =
      Except.error "time-weighted interpolation only works on Series or DataFrames with a DatetimeIndex" :=
  rfl

/-- C2 (amended).  On the §8.7 scenario input: with
`interpolate_period = true` the call fails because time interpolation
requires a datetime index; with `interpolate_period = false` it returns
5 rows (not 6), with forward-filled index `[2000, 2000, 2001, 2001, 2002]`
and the data column linearly interpolated `[1, 3/2, 2, 3, 4]`. -/
theorem interpolated_scenario_amended :
    (∃ e, get_interpolated_df scenarioDf 2 true = Except.error e) ∧
    get_interpolated_df scenarioDf 2 false =
      Except.ok
        { idxKind := IdxKind.numeric,
          index := [2000, 2000, 2001, 2001, 2002],
          cols := [{ name := "v", numeric := true,
                     vals := [some 1, some (3/2), some 2, some 3, some 4] }] } := by
  refine ⟨⟨_, rfl⟩, ?_⟩
  have hp1 : prevKnown [some 1, none, some 2, none, some 4] 1 = some (0, (1 : ℚ)) := rfl
  have hn1 : nextKnownFrom [some 1, none, some 2, none, some 4] 1 4 = some (2, (2 : ℚ)) := rfl
  have hp3 : prevKnown [some 1, none, some 2, none, some 4] 3 = some (2, (2 : ℚ)) := rfl
  have hn3 : nextKnownFrom [some 1, none, some 2, none, some 4] 3 2 = some (4, (4 : ℚ)) := rfl
  simp only [get_interpolated_df, scenarioDf, reindexIndexCol, reindexCells, fillIndexDate,
    interpWith, cellAt, prevKnown, nextKnown, nextKnownFrom, ffill, ffillAux]
  norm_num [List.range_succ]
  simp only [hp1, hn1, hp3, hn3]
  norm_num

theorem head?_eq_get? {α : Type} (l : List α) : l.head? = l.get? 0 := by
  rw [List.get?_eq_getElem?, List.head?_eq_getElem?]

theorem getLast?_eq_get? {α : Type} (l : List α) :
    l.getLast? = l.get? (l.length - 1) := by
  rw [List.get?_eq_getElem?, List.getLast?_eq_getElem?]

theorem reindexIndexCol_get? (s : ℕ) (idx : List ℚ) (L j : ℕ) (hj : j < L) :
    (reindexIndexCol s idx L).get? j =
      some (if j % s = 0 ∧ j / s < idx.length then idx.get? (j / s) else none) := by
  unfold reindexIndexCol
  exact get?_range_map _ L j hj

theorem reindexIndexCol_get?_zero (s : ℕ) (idx : List ℚ) (L : ℕ)
    (hL : 0 < L) (hN : 0 < idx.length) :
    (reindexIndexCol s idx L).get? 0 = some (idx.get? 0) := by
  rw [reindexIndexCol_get? s idx L 0 hL]
  simp [Nat.zero_mod, Nat.zero_div, hN]

theorem reindexIndexCol_get?_last (s : ℕ) (idx : List ℚ)
    (hs : 1 ≤ s) (hN : 0 < idx.length) :
    (reindexIndexCol s idx ((idx.length - 1) * s + 1)).get?
        ((idx.length - 1) * s) = some (idx.get? (idx.length - 1)) := by
  rw [reindexIndexCol_get? s idx _ _ (Nat.lt_succ_self _)]
  have h1 : (idx.length - 1) * s % s = 0 := Nat.mul_mod_left _ _
  have h2 : (idx.length - 1) * s / s = idx.length - 1 :=
    Nat.mul_div_cancel _ (Nat.lt_of_lt_of_le Nat.zero_lt_one hs)
  have h3 : idx.length - 1 < idx.length := Nat.sub_lt hN Nat.zero_lt_one
  simp [h1, h2, h3]

theorem ffillAux_get?_known (c : Option ℚ) (l : List (Option ℚ)) (j : ℕ)
    (v : ℚ) (h : l.get? j = some (some v)) :
    (ffillAux c l).get? j = some (some v) := by
  induction l generalizing c j with
  | nil => simp at h
  | cons hd tl ih =>
    cases j with
    | zero => cases hd <;> simp_all [ffillAux]
    | succ j => cases hd <;> simp_all [ffillAux]

theorem fillIndexDate_get?_zero (rix : List (Option ℚ)) (h : 1 ≤ rix.length) :
    (fillIndexDate rix).get? 0 = some ((cellAt rix 0).getD 0) := by
  unfold fillIndexDate
  by_cases hL : rix.length ≤ 1
  · rw [if_pos hL]; rfl
  · rw [if_neg hL, get?_range_map _ _ 0 (Nat.lt_of_lt_of_le Nat.zero_lt_one h)]
    norm_num

theorem fillIndexDate_get?_last (rix : List (Option ℚ)) (h : 1 ≤ rix.length) :
    (fillIndexDate rix).get? (rix.length - 1) =
      some ((cellAt rix (rix.length - 1)).getD 0) := by
  unfold fillIndexDate
  by_cases hL : rix.length ≤ 1
  · have h1 : rix.length = 1 := le_antisymm hL h
    rw [if_pos hL, h1]; rfl
  · push_neg at hL
    have hlt : rix.length - 1 < rix.length := Nat.sub_lt (by omega) Nat.zero_lt_one
    rw [if_neg (by omega), get?_range_map _ _ _ hlt]
    have hcast : ((rix.length - 1 : ℕ) : ℚ) = (rix.length : ℚ) - 1 := by
      push_cast [Nat.cast_sub (by omega : 1 ≤ rix.length)]
      ring
    have hne : ((rix.length : ℚ) - 1) ≠ 0 := by
      have : (2 : ℚ) ≤ (rix.length : ℚ) := by exact_mod_cast hL
      linarith
    rw [hcast, mul_div_cancel_left₀ _ hne]
    congr 1
    ring

theorem ffill_get?_known (l : List (Option ℚ)) (j : ℕ) (v : ℚ)
    (h : l.get? j = some (some v)) : (ffill l).get? j = some (some v) :=
  ffillAux_get?_known none l j v h

/-- C3 (amended).  In the two interpolation modes the code supports —
`interpolate_period = false` with any index, or `interpolate_period = true`
with a datetime index — `get_interpolated_df` succeeds on every non-empty
input and preserves the first and last index values exactly.  (The third
mode of the claim, `interpolate_period = true` with a numeric index,
raises instead: see the counterexample.) -/
theorem interpolated_endpoints (df : DataFrame) (s : ℕ) (ip : Bool)
    (hN : df.index ≠ []) (hs : 1 ≤ s)
    (hmode : ip = false ∨ df.idxKind = IdxKind.datetime) :
    ∃ out, get_interpolated_df df s ip = Except.ok out ∧
      out.index.head? = df.index.head? ∧
      out.index.getLast? = df.index.getLast? := by
  have hN0 : 0 < df.index.length := List.length_pos.mpr hN
  have hNne : ¬ df.index.length = 0 := by omega
  have hguard : ¬ (s = 0 ∧ 2 ≤ df.index.length) := by omega
  have hlast_lt : df.index.length - 1 < df.index.length := Nat.sub_lt hN0 Nat.zero_lt_one
  have hv0 : df.index.get? 0 = some (df.index.get ⟨0, hN0⟩) := List.get?_eq_get hN0
  have hvl : df.index.get? (df.index.length - 1) =
      some (df.index.get ⟨df.index.length - 1, hlast_lt⟩) := List.get?_eq_get hlast_lt
  have hLpos : 0 < (df.index.length - 1) * s + 1 := Nat.succ_pos _
  unfold get_interpolated_df
  rw [if_neg hNne, if_neg hguard]
  dsimp only
  set rix := reindexIndexCol s df.index ((df.index.length - 1) * s + 1) with hrixdef
  have hrixlen : rix.length = (df.index.length - 1) * s + 1 := reindexIndexCol_length _ _ _
  have hrix0 : rix.get? 0 = some (some (df.index.get ⟨0, hN0⟩)) := by
    rw [hrixdef, reindexIndexCol_get?_zero s df.index _ hLpos hN0, hv0]
  have hrixl : rix.get? ((df.index.length - 1) * s) =
      some (some (df.index.get ⟨df.index.length - 1, hlast_lt⟩)) := by
    rw [hrixdef, reindexIndexCol_get?_last s df.index hs hN0, hvl]
  cases ip with
  | false =>
    rw [if_neg Bool.false_ne_true]
    refine ⟨_, rfl, ?_, ?_⟩
    · rw [head?_eq_get?, head?_eq_get?, List.get?_map, ffill_get?_known _ _ _ hrix0, hv0]
      rfl
    · rw [getLast?_eq_get?, getLast?_eq_get?, List.length_map, ffill_length]
      have h1 : rix.length - 1 = (df.index.length - 1) * s := by omega
      rw [h1, List.get?_map, ffill_get?_known _ _ _ hrixl, hvl]
      rfl
  | true =>
    rcases hmode with hmode | hk
    · exact absurd hmode (by simp)
    rw [if_pos rfl, if_pos hk]
    refine ⟨_, rfl, ?_, ?_⟩
    · rw [head?_eq_get?, head?_eq_get?,
        fillIndexDate_get?_zero _ (by omega : 1 ≤ rix.length), hv0]
      unfold cellAt
      rw [hrix0]
      rfl
    · rw [getLast?_eq_get?, getLast?_eq_get?]
      have h1 : (fillIndexDate rix).length - 1 = rix.length - 1 := by
        rw [fillIndexDate_length _ (by omega : 1 ≤ rix.length)]
      rw [h1, fillIndexDate_get?_last _ (by omega : 1 ≤ rix.length)]
      unfold cellAt
      have h2 : rix.length - 1 = (df.index.length - 1) * s := by omega
      rw [h2, hrixl, hvl]
      rfl

/-- Counterexample to C3 as stated: the mode "interpolate_period true with
numeric index" does not return a table at all — the call raises the
time-interpolation error — so no table with matching first and last index
values is produced. -/
theorem interpolated_endpoints_cex :
    get_interpolated_df numericDf 2 true =
      Except.error "time-weighted interpolation only works on Series or DataFrames with a DatetimeIndex" :=
  rfl

theorem interpolated_endpoints_witness :
    ∃ out, get_interpolated_df datetimeDf 3 true = Except.ok out ∧
      out.index.head? = datetimeDf.index.head? ∧
      out.index.getLast? = datetimeDf.index.getLast? :=
  interpolated_endpoints datetimeDf 3 true (by decide) (by decide) (Or.inr rfl)

theorem listMinQ_le (l : List ℚ) (v : ℚ) (hv : v ∈ l) :
    ∃ m, listMinQ l = some m ∧ m ≤ v := by
  induction l with
  | nil => simp at hv
  | cons x xs ih =>
    rcases List.mem_cons.mp hv with h | h
    · cases hxs : listMinQ xs with
      | none => exact ⟨x, by simp [listMinQ, hxs], le_of_eq h.symm⟩
      | some m => exact ⟨min x m, by simp [listMinQ, hxs], h ▸ min_le_left x m⟩
    · obtain ⟨m, hm, hle⟩ := ih h
      exact ⟨min x m, by simp [listMinQ, hm], le_trans (min_le_right x m) hle⟩

theorem le_listMaxQ (l : List ℚ) (v : ℚ) (hv : v ∈ l) :
    ∃ m, listMaxQ l = some m ∧ v ≤ m := by
  induction l with
  | nil => simp at hv
  | cons x xs ih =>
    rcases List.mem_cons.mp hv with h | h
    · cases hxs : listMaxQ xs with
      | none => exact ⟨x, by simp [listMaxQ, hxs], le_of_eq h⟩
      | some m => exact ⟨max x m, by simp [listMaxQ, hxs], h ▸ le_max_left x m⟩
    · obtain ⟨m, hm, hle⟩ := ih h
      exact ⟨max x m, by simp [listMaxQ, hm], le_trans hle (le_max_right x m)⟩

theorem listMinQ_isSome (l : List ℚ) (h : l ≠ []) : ∃ m, listMinQ l = some m := by
  cases l with
  | nil => exact absurd rfl h
  | cons x xs => cases hxs : listMinQ xs <;> simp [listMinQ, hxs]

theorem listMaxQ_isSome (l : List ℚ) (h : l ≠ []) : ∃ m, listMaxQ l = some m := by
  cases l with
  | nil => exact absurd rfl h
  | cons x xs => cases hxs : listMaxQ xs <;> simp [listMaxQ, hxs]

theorem mem_numericValsUpTo (df : DataFrame) (i : ℕ) (c : Col) (hc : c ∈ df.cols)
    (hnum : c.numeric = true) (j : ℕ) (hj : j ≤ i) (v : ℚ)
    (hv : c.vals.get? j = some (some v)) : v ∈ numericValsUpTo df i := by
  unfold numericValsUpTo
  apply List.mem_bind.mpr
  refine ⟨c, List.mem_filter.mpr ⟨hc, by simp [hnum]⟩, ?_⟩
  apply List.mem_filterMap.mpr
  refine ⟨some v, ?_, rfl⟩
  have hjlt : j < i + 1 := Nat.lt_succ_of_le hj
  have : (c.vals.take (i + 1)).get? j = some (some v) := by
    rw [List.get?_take hjlt]
    exact hv
  exact List.get?_mem this

/-- C4.  Whenever `set_x_y_limits` completes on frame `i`, the y-limits it
sets bound every non-missing numeric value appearing in any numeric data
column over rows `0 .. i`. -/
theorem ylim_bounds (df : DataFrame) (i : ℕ) (xl : ℚ × ℚ)
    (yl : Option ℚ × Option ℚ) (h : set_x_y_limits df i = Except.ok (xl, yl))
    (c : Col) (hc : c ∈ df.cols) (hnum : c.numeric = true)
    (j : ℕ) (hj : j ≤ i) (v : ℚ) (hv : c.vals.get? j = some (some v)) :
    ∃ lo hi, yl = (some lo, some hi) ∧ lo ≤ v ∧ v ≤ hi := by
  have hmem : v ∈ numericValsUpTo df i :=
    mem_numericValsUpTo df i c hc hnum j hj v hv
  obtain ⟨lo, hlo, hlov⟩ := listMinQ_le _ v hmem
  obtain ⟨hi2, hhi, hvhi⟩ := le_listMaxQ _ v hmem
  refine ⟨lo, hi2, ?_, hlov, hvhi⟩
  unfold set_x_y_limits at h
  split at h
  · split at h
    · rw [Except.ok.injEq] at h
      have := congrArg Prod.snd h
      simp only at this
      rw [← this, hlo, hhi]
    · exact absurd h (by simp)
  · exact absurd h (by simp)

theorem ylim_bounds_witness :
    ∃ lo hi, ((some (3 : ℚ), some (3 : ℚ)) : Option ℚ × Option ℚ) = (some lo, some hi) ∧
      lo ≤ (3 : ℚ) ∧ (3 : ℚ) ≤ hi :=
  ylim_bounds ylimDf 0 (0, 0 + timedelta_pad) (some 3, some 3) rfl
    { name := "y", numeric := true, vals := [some 3] } (by decide) rfl
    0 (le_refl 0) 3 rfl

/-- C5 (amended).  On a datetime-indexed table `set_x_y_limits` succeeds
for every frame in range, and sets the x-limits to span from the minimum
index value over rows `0 .. i` to the maximum over those rows plus the
strictly positive one-second pad.  (On a numeric index it raises instead:
adding a `Timedelta` to a float is a `TypeError` — see the
counterexample.) -/
theorem xlim_spec (df : DataFrame) (i : ℕ)
    (hk : df.idxKind = IdxKind.datetime) (hN : df.index ≠ []) :
    ∃ lo hi yl, listMinQ (df.index.take (i + 1)) = some lo ∧
      listMaxQ (df.index.take (i + 1)) = some hi ∧
      set_x_y_limits df i = Except.ok ((lo, hi + timedelta_pad), yl) ∧
      0 < timedelta_pad := by
  have htake : df.index.take (i + 1) ≠ [] := by
    cases hx : df.index with
    | nil => exact absurd hx hN
    | cons a l => simp [hx]
  obtain ⟨lo, hlo⟩ := listMinQ_isSome _ htake
  obtain ⟨hi2, hhi⟩ := listMaxQ_isSome _ htake
  refine ⟨lo, hi2,
    (listMinQ (numericValsUpTo df i), listMaxQ (numericValsUpTo df i)),
    hlo, hhi, ?_, by norm_num [timedelta_pad]⟩
  unfold set_x_y_limits
  rw [hlo, hhi]
  simp only [hk, if_true, reduceIte]

/-- Counterexample to C5 as stated: on a numeric-index interpolated table
`set_x_y_limits` does not succeed — `index.max() + pd.Timedelta(seconds=1)`
is a `TypeError` on floats — so the claim fails for numeric indexes. -/
theorem xlim_spec_cex :
    set_x_y_limits numericXlimDf 0 =
      Except.error "unsupported operand types for add: float and Timedelta" :=
  rfl

theorem xlim_spec_witness :
    ∃ lo hi yl, listMinQ (datetimeXlimDf.index.take (1 + 1)) = some lo ∧
      listMaxQ (datetimeXlimDf.index.take (1 + 1)) = some hi ∧
      set_x_y_limits datetimeXlimDf 1 = Except.ok ((lo, hi + timedelta_pad), yl) ∧
      0 < timedelta_pad :=
  xlim_spec datetimeXlimDf 1 rfl (by decide)

/-- C7.  `get_data_cols` returns exactly the numeric columns, in original
column order, and has length at least 1, whenever at least one numeric
column exists; with zero numeric columns it raises, so chart construction
fails. -/
theorem data_cols_spec (df : DataFrame) :
    ((∃ c ∈ df.cols, c.numeric = true) →
      get_data_cols df =
        Except.ok ((df.cols.filter fun c => c.numeric).map Col.name) ∧
      1 ≤ ((df.cols.filter fun c => c.numeric).map Col.name).length) ∧
    ((∀ c ∈ df.cols, c.numeric = false) →
      ∃ e, get_data_cols df = Except.error e) := by
  constructor
  · rintro ⟨c, hc, hnum⟩
    have hmem : c ∈ df.cols.filter fun c => c.numeric :=
      List.mem_filter.mpr ⟨hc, by simp [hnum]⟩
    have hne : (df.cols.filter fun c => c.numeric) ≠ [] :=
      List.ne_nil_of_mem hmem
    have hlen : 1 ≤ ((df.cols.filter fun c => c.numeric).map Col.name).length := by
      rw [List.length_map]
      exact List.length_pos.mpr hne
    have hempty : ¬ ((df.cols.filter fun c => c.numeric).map Col.name).isEmpty = true := by
      simp [List.isEmpty_iff, hne]
    rw [get_data_cols_eq df, if_neg hempty]
    exact ⟨rfl, hlen⟩
  · intro hall
    have hnil : df.cols.filter (fun c => c.numeric) = [] :=
      List.filter_eq_nil.mpr fun c hc => by simp [hall c hc]
    rw [get_data_cols_eq df, hnil]
    exact ⟨_, rfl⟩

theorem data_cols_spec_witness :
    (get_data_cols mixedColsDf =
        Except.ok ((mixedColsDf.cols.filter fun c => c.numeric).map Col.name) ∧
      1 ≤ ((mixedColsDf.cols.filter fun c => c.numeric).map Col.name).length) ∧
    ∃ e, get_data_cols noNumColsDf = Except.error e :=
  ⟨(data_cols_spec mixedColsDf).1
      ⟨{ name := "a", numeric := true, vals := [some 2] }, by decide, rfl⟩,
   (data_cols_spec noNumColsDf).2 (by decide)⟩

/-- C10.  The defensive missing-column branch of `get_data_cols` is
unreachable: the loop iterates exactly over the column labels, so the
membership test never fails, and the only error `get_data_cols` can
produce is the zero-numeric-columns one. -/
theorem data_cols_defensive_unreachable (df : DataFrame) :
    (∀ c ∈ df.cols, c.name ∈ df.cols.map Col.name) ∧
    (∀ e, get_data_cols df = Except.error e →
      e = "No numeric data columns found for plotting.") := by
  refine ⟨fun c hc => List.mem_map_of_mem Col.name hc, fun e he => ?_⟩
  rw [get_data_cols_eq df] at he
  by_cases hempty : ((df.cols.filter fun c => c.numeric).map Col.name).isEmpty = true
  · rw [if_pos hempty] at he
    exact (Except.error.injEq _ _).mp he.symm
  · rw [if_neg hempty] at he
    exact absurd he (by simp)

theorem data_cols_defensive_unreachable_witness :
    ({ name := "s", numeric := false, vals := [none] } : Col).name ∈
      noNumColsDf.cols.map Col.name ∧
    "No numeric data columns found for plotting." =
      "No numeric data columns found for plotting." :=
  ⟨(data_cols_defensive_unreachable noNumColsDf).1 _ (by decide),
   (data_cols_defensive_unreachable noNumColsDf).2 _ rfl⟩

/-- Counterexample to C9 as stated: the empty dict is an explicit style
dict missing both required anchor keys, yet `get_period_label` returns
`False` (it is Python-falsy) instead of raising the `ValueError`. -/
theorem get_period_label_cex :
    get_period_label (PeriodLabel.dict []) = Except.ok none ∧
    ∀ e, get_period_label (PeriodLabel.dict []) ≠ Except.error e := by
  refine ⟨rfl, fun e he => ?_⟩
  rw [show get_period_label (PeriodLabel.dict []) = Except.ok none from rfl] at he
  exact Except.noConfusion he

/-- C9 (amended).  Falsy `period_label` values — `False` and the empty
dict — make `get_period_label` return `False`; `True` returns the default
style dict (which anchors at x = 0.9, y = 0.1); a non-empty explicit
style dict raises `ValueError` exactly when key `x` or key `y` is
missing, and is otherwise returned unchanged. -/
theorem get_period_label_spec :
    (∀ pl : PeriodLabel, pl.falsy = true → get_period_label pl = Except.ok none) ∧
    get_period_label (PeriodLabel.bool true) = Except.ok (some default_period_label) ∧
    (∀ d : StyleDict, d ≠ [] →
      ((dictHasKey d "x" = true ∧ dictHasKey d "y" = true) →
        get_period_label (PeriodLabel.dict d) = Except.ok (some d)) ∧
      ((dictHasKey d "x" = false ∨ dictHasKey d "y" = false) →
        ∃ e, get_period_label (PeriodLabel.dict d) = Except.error e)) := by
  refine ⟨fun pl h => by simp [get_period_label, h], rfl, fun d hd => ⟨?_, ?_⟩⟩
  · rintro ⟨hx, hy⟩
    have hfal : (PeriodLabel.dict d).falsy = false := by
      simp [PeriodLabel.falsy, List.isEmpty_iff, hd]
    simp [get_period_label, hfal, hx, hy]
  · intro hor
    have hfal : (PeriodLabel.dict d).falsy = false := by
      simp [PeriodLabel.falsy, List.isEmpty_iff, hd]
    have hcond : ¬ dictHasKey d "x" = true ∨ ¬ dictHasKey d "y" = true := by
      rcases hor with h | h
      · exact Or.inl (by simp [h])
      · exact Or.inr (by simp [h])
    exact ⟨"period_label dictionary must have keys for x and y", by
      simp only [get_period_label, hfal, Bool.false_eq_true, if_false]
      rw [if_pos hcond]⟩

theorem get_period_label_spec_witness :
    get_period_label (PeriodLabel.bool false) = Except.ok none ∧
    get_period_label (PeriodLabel.dict [("x", PyVal.num 0), ("y", PyVal.num 0)]) =
      Except.ok (some [("x", PyVal.num 0), ("y", PyVal.num 0)]) ∧
    ∃ e, get_period_label (PeriodLabel.dict [("size", PyVal.num 10)]) =
      Except.error e :=
  ⟨get_period_label_spec.1 (PeriodLabel.bool false) rfl,
   (get_period_label_spec.2.2 [("x", PyVal.num 0), ("y", PyVal.num 0)]
      (by simp)).1 ⟨rfl, rfl⟩,
   (get_period_label_spec.2.2 [("size", PyVal.num 10)]
      (by simp)).2 (Or.inl rfl)⟩

/-- C8.  A scatter chart whose `size` option names a column that is not
among the numeric data columns raises a descriptive `ValueError` on every
frame before its first `ax.scatter` call: zero scatter point sets are
drawn for any frame.  (Construction guarantees `data_cols` is non-empty,
and per §4.1 the color list covers the data columns; `init_func` only
draws an empty point set.) -/
theorem scatter_size_validation (df : DataFrame) (data_cols colors : List String)
    (s : String) (i : ℕ) (hs : s ∉ data_cols) (hdc : data_cols ≠ [])
    (hlen : data_cols.length ≤ colors.length) :
    (plot_point df data_cols colors (SizeSpec.str s) i).1 = 0 ∧
    ∃ e, (plot_point df data_cols colors (SizeSpec.str s) i).2 = some e := by
  unfold plot_point
  cases hxy : set_x_y_limits df i with
  | error e => exact ⟨rfl, e, rfl⟩
  | ok r =>
    cases hdc1 : data_cols with
    | nil => exact absurd hdc1 hdc
    | cons a rest =>
      cases hc : colors with
      | nil =>
        rw [hdc1, hc] at hlen
        simp at hlen
      | cons b cr =>
        rw [hdc1] at hs
        have hloop : scatterLoop ((a :: rest).zip (b :: cr)) (SizeSpec.str s) (a :: rest) =
            (0, some ("Size provided as string: " ++ s ++ ", not present in dataframe columns")) := by
          simp only [List.zip_cons_cons, scatterLoop, if_pos hs]
        dsimp only
        rw [hloop]
        exact ⟨rfl, _, rfl⟩

theorem scatter_size_validation_witness :
    (plot_point scatterDf ["y"] ["#2E91E5"] (SizeSpec.str "colA") 0).1 = 0 ∧
    ∃ e, (plot_point scatterDf ["y"] ["#2E91E5"] (SizeSpec.str "colA") 0).2 = some e :=
  scatter_size_validation scatterDf ["y"] ["#2E91E5"] "colA" 0
    (by decide) (by decide) (by decide)

theorem set_x_y_limits_ok (df : DataFrame) (i : ℕ)
    (hk : df.idxKind = IdxKind.datetime) (hN : df.index ≠ []) :
    ∃ r, set_x_y_limits df i = Except.ok r := by
  have htake : df.index.take (i + 1) ≠ [] := by
    cases hx : df.index with
    | nil => exact absurd hx hN
    | cons a l => simp [hx]
  obtain ⟨lo, hlo⟩ := listMinQ_isSome _ htake
  obtain ⟨hi2, hhi⟩ := listMaxQ_isSome _ htake
  unfold set_x_y_limits
  rw [hlo, hhi]
  simp [hk]

theorem foldl_plotLineStep_texts (df : DataFrame) (i : ℕ)
    (pairs : List (String × String)) (st : LineState) :
    (pairs.foldl (plotLineStep df i) st).texts = st.texts ∧
    (pairs.foldl (plotLineStep df i) st).textCalls = st.textCalls := by
  induction pairs generalizing st with
  | nil => exact ⟨rfl, rfl⟩
  | cons p rest ih =>
    rw [List.foldl_cons]
    exact ih (plotLineStep df i st p)

theorem plot_line_ok (df : DataFrame) (data_cols line_colors : List String)
    (i : ℕ) (st : LineState) (hk : df.idxKind = IdxKind.datetime)
    (hN : df.index ≠ []) :
    ∃ st2, plot_line df data_cols line_colors i st = Except.ok st2 ∧
      st2.texts = st.texts ∧ st2.textCalls = st.textCalls := by
  obtain ⟨r, hr⟩ := set_x_y_limits_ok df i hk hN
  unfold plot_line
  rw [hr]
  exact ⟨_, rfl, foldl_plotLineStep_texts df i _ st⟩

theorem show_period_create (df : DataFrame) (pl : PeriodLabel)
    (fmt : Option String) (i : ℕ) (d : StyleDict) (calls : ℕ)
    (hpl : pl.falsy = false)
    (hgpl : get_period_label pl = Except.ok (some d)) :
    show_period df pl fmt i [] calls =
      Except.ok ([{ content := period_string df fmt i, props := d }], calls + 1) := by
  unfold show_period
  rw [if_neg (by simp [hpl]), if_pos (show ([] : List TextObj).length = 0 from rfl), hgpl]
  rfl

theorem show_period_update (df : DataFrame) (pl : PeriodLabel)
    (fmt : Option String) (i : ℕ) (t : TextObj) (rest : List TextObj)
    (calls : ℕ) (hpl : pl.falsy = false) :
    show_period df pl fmt i (t :: rest) calls =
      Except.ok ({ t with content := period_string df fmt i } :: rest, calls) := by
  unfold show_period
  rw [if_neg (by simp [hpl]), if_neg (by simp)]

/-- C6 (amended).  For a chart with both `period_label` truthy (well
formed, so `get_period_label` returns the anchor kwargs `d`) and
`period_fmt` truthy, running the animation over frames `0 .. k - 1` (any
`k ≥ 1`, datetime index so the frame rendering itself succeeds) leaves
exactly one text object on the axes, created by a single `ax.text` call on
the first frame with kwargs `d`, and after every frame its content is the
formatted index value of that frame while its creation kwargs never
change.  (The claim as stated omits the `period_fmt` requirement:
`anim_func` only calls `show_period` when `period_fmt` is truthy — see
the counterexample.) -/
theorem single_text_invariant (df : DataFrame)
    (data_cols line_colors : List String) (pl : PeriodLabel)
    (fmt : Option String) (d : StyleDict)
    (hk : df.idxKind = IdxKind.datetime) (hN : df.index ≠ [])
    (hpl : pl.falsy = false) (hgpl : get_period_label pl = Except.ok (some d))
    (hfmt : strTruthy fmt = true) :
    ∀ k, 1 ≤ k →
      ∃ st, run_anim df data_cols line_colors pl fmt k = Except.ok st ∧
        st.textCalls = 1 ∧
        st.texts = [{ content := period_string df fmt (k - 1), props := d }] := by
  intro k hk1
  induction k with
  | zero => omega
  | succ k ih =>
    cases Nat.eq_zero_or_pos k with
    | inl h0 =>
      subst h0
      obtain ⟨st2, hst2, htexts, hcalls⟩ :=
        plot_line_ok df data_cols line_colors 0
          { init_state data_cols with axLines := [] } hk hN
      have h6 : st2.texts = [] := by simpa [init_state] using htexts
      have h7 : st2.textCalls = 0 := by simpa [init_state] using hcalls
      refine ⟨{ st2 with
          texts := [{ content := period_string df fmt 0, props := d }],
          textCalls := st2.textCalls + 1 }, ?_, by rw [h7], rfl⟩
      show anim_func df data_cols line_colors pl fmt 0 (init_state data_cols) = _
      unfold anim_func
      rw [hst2]
      dsimp only
      rw [if_pos hfmt, h6, h7,
        show_period_create df pl fmt 0 d 0 hpl hgpl]
    | inr hpos =>
      obtain ⟨st, hst, hstc, hstt⟩ := ih hpos
      obtain ⟨st2, hst2, htexts, hcalls⟩ :=
        plot_line_ok df data_cols line_colors k { st with axLines := [] } hk hN
      have h6 : st2.texts = [{ content := period_string df fmt (k - 1), props := d }] := by
        rw [htexts]
        exact hstt
      have h7 : st2.textCalls = 1 := by
        rw [hcalls]
        exact hstc
      refine ⟨{ st2 with
          texts := [{ content := period_string df fmt k, props := d }],
          textCalls := st2.textCalls }, ?_, by rw [h7], by simp⟩
      show (match run_anim df data_cols line_colors pl fmt k with
        | Except.error e => Except.error e
        | Except.ok st => anim_func df data_cols line_colors pl fmt k st) = _
      rw [hst]
      show anim_func df data_cols line_colors pl fmt k st = _
      unfold anim_func
      rw [hst2]
      dsimp only
      rw [if_pos hfmt, h6,
        show_period_update df pl fmt k _ [] st2.textCalls hpl]

/-- Counterexample to C6 as stated: with `period_label` enabled (`True`)
but `period_fmt` unset, running all frames of the animation calls
`ax.text` zero times and leaves no text object on the axes — `anim_func`
only invokes `show_period` when `period_fmt` is truthy — contradicting
the claim that exactly one text object is created. -/
theorem single_text_invariant_cex :
    (run_anim labelOnlyDf ["y"] ["#2E91E5"] (PeriodLabel.bool true) none 2).map
      (fun st => (st.texts, st.textCalls)) = Except.ok ([], 0) :=
  rfl

theorem single_text_invariant_witness :
    ∃ st, run_anim labelFmtDf ["y"] ["#2E91E5"] (PeriodLabel.bool true)
        (some "%Y") 1 = Except.ok st ∧
      st.textCalls = 1 ∧
      st.texts = [{ content := period_string labelFmtDf (some "%Y") (1 - 1),
                    props := default_period_label }] :=
  single_text_invariant labelFmtDf ["y"] ["#2E91E5"] (PeriodLabel.bool true)
    (some "%Y") default_period_label rfl (by decide) rfl rfl rfl 1 (le_refl 1)
